import Mathlib

/-!
Verification of the service-worker caching subsystem of the Spiritual Count
repository (src/sw.js).

The embedding models the worker as pure functions over an explicit cache
state.  A captured HTTP response is a record of status, status text,
content type and body.  The browser Cache Storage is an association list
from namespace identifiers to caches; a cache is an association list from
request keys (URL paths; all intercepted requests are same-origin GETs) to
captured responses.  The network is an oracle from request keys to
`Option Response`: `none` models a rejected fetch (network failure), and
`some r` a fetch that resolved with response `r`.  Each event handler of
sw.js becomes a function of the oracle and the pre-state, returning the
response produced (where applicable) and the post-state.
-/

/-- A captured HTTP response: status, statusText, the Content-Type header
when one is set explicitly, and the body snapshot.  Cloning a response
(`response.clone()` in sw.js) is value copying in this model. -/
structure Response where
  status : Nat
  statusText : String
  contentType : Option String
  body : String
deriving DecidableEq, Repr

/-- `Response.ok` of the fetch API: status in the inclusive range 200-299. -/
def Response.ok (r : Response) : Bool :=
  decide (200 ≤ r.status) && decide (r.status < 300)

/-- One named cache: request key to captured response. -/
abbrev Cache := List (String × Response)

/-- The Cache Storage: namespace identifier to cache, in creation order. -/
abbrev CacheStorage := List (String × Cache)

/-- The network oracle: `none` is a rejected fetch, `some r` a response. -/
abbrev Network := String → Option Response

/-- sw.js line 4: the single cache namespace used by every strategy. -/
def CACHE_NAME : String := "spiritual-count-v1"

/-- sw.js line 5: the configured semantic version string. -/
def CACHE_VERSION : String := "1.0.0"

/-- sw.js lines 8-17: core assets; installation must cache all of them. -/
def CORE_ASSETS : List String :=
  ["/", "/index.html", "/about.html", "/tracker.html", "/themes.html",
   "/contact.html", "/style.css", "/script.js"]

/-- sw.js lines 20-23: optional assets, cached best-effort. -/
def OPTIONAL_ASSETS : List String :=
  ["/manifest.json", "/favicon.ico"]

/-- Look up a request key in one cache (`cache.match` scoped to it). -/
def cacheMatchIn (c : Cache) (req : String) : Option Response :=
  match c with
  | [] => none
  | (k, v) :: rest => if k == req then some v else cacheMatchIn rest req

/-- `caches.match(request)`: search every cache in storage order.  All
reads in sw.js go through this storage-wide lookup. -/
def cachesMatch (cs : CacheStorage) (req : String) : Option Response :=
  match cs with
  | [] => none
  | (_, c) :: rest =>
    match cacheMatchIn c req with
    | some r => some r
    | none => cachesMatch rest req

/-- `cache.put` inside one cache: overwrite the entry for the key, or
append a new entry. -/
def cachePutEntry (c : Cache) (req : String) (r : Response) : Cache :=
  match c with
  | [] => [(req, r)]
  | (k, v) :: rest =>
    if k == req then (k, r) :: rest else (k, v) :: cachePutEntry rest req r

/-- `caches.open(name)`: ensure the namespace exists (created empty when
absent); existing namespaces are untouched. -/
def cachesOpen (cs : CacheStorage) (name : String) : CacheStorage :=
  match cs with
  | [] => [(name, [])]
  | (k, c) :: rest =>
    if k == name then (k, c) :: rest else (k, c) :: cachesOpen rest name

/-- `caches.open(name)` followed by `cache.put(req, r)` on the opened
cache — the only write path any sw.js strategy uses. -/
def cachePut (cs : CacheStorage) (name req : String) (r : Response) : CacheStorage :=
  match cs with
  | [] => [(name, [(req, r)])]
  | (k, c) :: rest =>
    if k == name then (k, cachePutEntry c req r) :: rest
    else (k, c) :: cachePut rest name req r

/-- Look up a namespace by identifier. -/
def getNamespace (cs : CacheStorage) (name : String) : Option Cache :=
  match cs with
  | [] => none
  | (k, c) :: rest => if k == name then some c else getNamespace rest name

/-- `caches.keys()`: the namespace identifiers in storage order. -/
def cachesKeys (cs : CacheStorage) : List String :=
  cs.map (fun p => p.1)

/-- `caches.has(name)`. -/
def cachesHas (cs : CacheStorage) (name : String) : Bool :=
  cs.any (fun p => p.1 == name)

/-- JavaScript `String.prototype.endsWith`: the pattern is a suffix of the
character sequence (case-sensitive). -/
def jsEndsWith (s pat : String) : Bool :=
  pat.data.isSuffixOf s.data

/-- sw.js line 142: the static-asset extension list. -/
def staticExtensions : List String :=
  [".css", ".js", ".json", ".ico", ".png", ".jpg", ".jpeg", ".svg",
   ".woff", ".woff2"]

/-- sw.js lines 141-144: `isStaticAsset(pathname)`. -/
def isStaticAsset (pathname : String) : Bool :=
  staticExtensions.any (fun ext => jsEndsWith pathname ext)

/-- sw.js lines 149-151: `isHTMLPage(pathname)`. -/
def isHTMLPage (pathname : String) : Bool :=
  jsEndsWith pathname ".html" || pathname == "/"

/-- The three routing categories of the fetch dispatch. -/
inductive RoutingCategory where
  | StaticAsset
  | HTMLPage
  | Other
deriving DecidableEq, Repr

/-- sw.js lines 126-135: the fetch listener dispatch on the request path
(for a same-origin GET): static assets first, then HTML pages, else the
generic network-first handler. -/
def classify (pathname : String) : RoutingCategory :=
  if isStaticAsset pathname then RoutingCategory.StaticAsset
  else if isHTMLPage pathname then RoutingCategory.HTMLPage
  else RoutingCategory.Other

/-- sw.js lines 190-193: synthesized 503 for an unavailable static asset. -/
def assetUnavailable : Response :=
  { status := 503, statusText := "Service Unavailable", contentType := none,
    body := "Asset not available offline" }

/-- sw.js lines 266-269: synthesized 503 when neither network nor cache
can satisfy a generic request. -/
def requestFailed : Response :=
  { status := 503, statusText := "Service Unavailable", contentType := none,
    body := "Request failed and no cached version available" }

/-- sw.js lines 276-343: `createOfflinePage()`, a complete self-contained
HTML document (no external references).  The inline style and script
blocks of the original markup are elided here; only the document
structure and text are kept, which is all any claim depends on. -/
def createOfflinePage : String :=
  String.append "<!DOCTYPE html><html lang=\"en\"><head><meta charset=\"UTF-8\">"
    (String.append "<title>Offline - Spiritual Count</title></head><body>"
      (String.append "<div class=\"container\"><h1>Spiritual Count</h1>"
        (String.append "<p>You are currently offline. Once you are back online, you can access all features of Spiritual Count.</p>"
          "<p>Your dhikr counts and settings are safely stored on your device.</p><button>Try Again</button></div></body></html>")))

/-- sw.js lines 236-239: the offline placeholder response, status 200
with Content-Type text/html. -/
def offlineResponse : Response :=
  { status := 200, statusText := "", contentType := some "text/html",
    body := createOfflinePage }

/-- The outcome of the cache-first handler: the response returned, the
cache post-state, and how many times `fetch` was called. -/
structure StaticResult where
  response : Response
  cache : CacheStorage
  networkCalls : Nat
deriving DecidableEq, Repr

/-- sw.js lines 157-195: `handleStaticAsset`, cache-first.  A hit is
served directly; on a miss the network is fetched, an ok response is
cloned and persisted under `CACHE_NAME`, and the original returned.  When
the fetch rejects, the catch block re-checks the cache and otherwise
synthesizes a 503.  `networkCalls` counts the `fetch` invocations. -/
def handleStaticAsset (net : Network) (cs : CacheStorage) (req : String) : StaticResult :=
  match cachesMatch cs req with
  | some cachedResponse => { response := cachedResponse, cache := cs, networkCalls := 0 }
  | none =>
    match net req with
    | some networkResponse =>
      if networkResponse.ok then
        { response := networkResponse,
          cache := cachePut cs CACHE_NAME req networkResponse, networkCalls := 1 }
      else
        { response := networkResponse, cache := cs, networkCalls := 1 }
    | none =>
      match cachesMatch cs req with
      | some cachedResponse => { response := cachedResponse, cache := cs, networkCalls := 1 }
      | none => { response := assetUnavailable, cache := cs, networkCalls := 1 }

/-- sw.js lines 218-240: the catch block of `handleHTMLPage` — cached
entry for the exact request, else the cached `/index.html`, else the
synthesized offline page. -/
def htmlFallback (cs : CacheStorage) (req : String) : Response × CacheStorage :=
  match cachesMatch cs req with
  | some cachedResponse => (cachedResponse, cs)
  | none =>
    match cachesMatch cs "/index.html" with
    | some indexFallback => (indexFallback, cs)
    | none => (offlineResponse, cs)

/-- sw.js lines 201-241: `handleHTMLPage`, network-first.  An ok network
response is cloned, persisted under `CACHE_NAME` and returned; a non-ok
response is turned into a thrown error (line 217), so it reaches the same
catch block as a rejected fetch and the fallback chain runs. -/
def handleHTMLPage (net : Network) (cs : CacheStorage) (req : String) : Response × CacheStorage :=
  match net req with
  | some networkResponse =>
    if networkResponse.ok then
      (networkResponse, cachePut cs CACHE_NAME req networkResponse)
    else htmlFallback cs req
  | none => htmlFallback cs req

/-- sw.js lines 246-271: `handleNetworkFirst` for every other request.
An ok response to a GET is cloned and persisted under `CACHE_NAME`; the
network response is returned either way.  On a rejected fetch, fall back
to the cache, else synthesize a 503. -/
def handleNetworkFirst (net : Network) (cs : CacheStorage) (req method : String) :
    Response × CacheStorage :=
  match net req with
  | some networkResponse =>
    if networkResponse.ok && (method == "GET") then
      (networkResponse, cachePut cs CACHE_NAME req networkResponse)
    else (networkResponse, cs)
  | none =>
    match cachesMatch cs req with
    | some cachedResponse => (cachedResponse, cs)
    | none => (requestFailed, cs)

/-- `cache.addAll(assets)` fetch phase: fetch every asset; reject (return
`none`) as soon as any fetch rejects or resolves with a non-ok status;
otherwise return all fetched pairs.  Mirrors the batch semantics of
`Cache.addAll`: nothing is stored unless every asset succeeded. -/
def fetchAllOk (net : Network) : List String → Option (List (String × Response))
  | [] => some []
  | a :: rest =>
    match net a with
    | some r =>
      if r.ok then (fetchAllOk net rest).map (fun l => (a, r) :: l) else none
    | none => none

/-- Store a batch of fetched entries under one namespace. -/
def putAll (cs : CacheStorage) (name : String) : List (String × Response) → CacheStorage
  | [] => cs
  | (a, r) :: rest => putAll (cachePut cs name a r) name rest

/-- sw.js lines 47-62: cache each optional asset individually; a rejected
fetch or a non-ok response is swallowed and the rest proceed. -/
def cacheOptionalAssets (net : Network) (cs : CacheStorage) : List String → CacheStorage
  | [] => cs
  | a :: rest =>
    match net a with
    | some r =>
      if r.ok then cacheOptionalAssets net (cachePut cs CACHE_NAME a r) rest
      else cacheOptionalAssets net cs rest
    | none => cacheOptionalAssets net cs rest

/-- sw.js lines 36-67: the promise chain inside `event.waitUntil` of the
install listener, up to but not including the final `.catch`:
`caches.open(CACHE_NAME)`, `cache.addAll(CORE_ASSETS)`, then the optional
assets.  `none` means the chain rejected (some core asset failed). -/
def installChain (net : Network) (cs : CacheStorage) : Option CacheStorage :=
  match fetchAllOk net CORE_ASSETS with
  | none => none
  | some entries =>
    some (cacheOptionalAssets net (putAll (cachesOpen cs CACHE_NAME) CACHE_NAME entries)
      OPTIONAL_ASSETS)

/-- The observable outcome of the install event: whether the promise
handed to `event.waitUntil` resolved (when it does, the worker finishes
installing and becomes eligible for activation under the service-worker
lifecycle), whether `self.skipWaiting()` was called, and the cache
post-state. -/
structure InstallResult where
  waitUntilResolved : Bool
  skipWaitingCalled : Bool
  cache : CacheStorage
deriving DecidableEq, Repr

/-- sw.js lines 32-72: the install listener.  On chain success,
`self.skipWaiting()` is called (line 66).  On chain failure the final
`.catch` (lines 68-70) logs the error and resolves, so the `waitUntil`
promise still resolves; the cache keeps whatever `caches.open` created
(the `addAll` batch stored nothing). -/
def installEvent (net : Network) (cs : CacheStorage) : InstallResult :=
  match installChain net cs with
  | some cs2 =>
    { waitUntilResolved := true, skipWaitingCalled := true, cache := cs2 }
  | none =>
    { waitUntilResolved := true, skipWaitingCalled := false,
      cache := cachesOpen cs CACHE_NAME }

/-- sw.js lines 78-105: the activate listener deletes every namespace
whose identifier differs from `CACHE_NAME`, leaving the rest of the
storage untouched (then claims clients, which has no cache effect). -/
def activateEvent (cs : CacheStorage) : CacheStorage :=
  cs.filter (fun p => p.1 == CACHE_NAME)

/-- The data field of a control-channel message: `type` is `none` when
the field is absent or undefined. -/
structure MessageData where
  type : Option String
deriving DecidableEq, Repr

/-- A reply posted on `event.ports[0]`. -/
inductive ReplyMsg where
  | versionReply (version : String)
  | skippedWaiting
  | cacheStatusReply (hasCache : Bool) (cacheName : String)
deriving DecidableEq, Repr

/-- sw.js lines 348-381: the message listener.  Returns the list of
replies posted on the reply port and whether `self.skipWaiting()` was
called.  The guard `if (event.data && event.data.type)` drops a
null/undefined data object, a missing `type` field, and (JavaScript
falsiness) an empty-string `type`; the switch default posts nothing. -/
def onMessage (cs : CacheStorage) (data : Option MessageData) : List ReplyMsg × Bool :=
  match data with
  | none => ([], false)
  | some d =>
    match d.type with
    | none => ([], false)
    | some t =>
      if t == "" then ([], false)
      else if t == "GET_VERSION" then ([ReplyMsg.versionReply CACHE_VERSION], false)
      else if t == "SKIP_WAITING" then ([ReplyMsg.skippedWaiting], true)
      else if t == "CACHE_STATUS" then
        ([ReplyMsg.cacheStatusReply (cachesHas cs CACHE_NAME) CACHE_NAME], false)
      else ([], false)

/-- A sample ok response used by concrete witnesses. -/
def demoResponse : Response :=
  { status := 200, statusText := "OK", contentType := some "text/css",
    body := "body" }

/-- A sample non-ok response used by concrete witnesses. -/
def notFoundResponse : Response :=
  { status := 404, statusText := "Not Found", contentType := none,
    body := "missing" }

/-- A storage with the current namespace holding one entry. -/
def demoStorage : CacheStorage :=
  [(CACHE_NAME, [("/style.css", demoResponse)])]

/-- A network oracle that answers every request with a 404. -/
def netNotFound : Network := fun _ => some notFoundResponse

/-- A network oracle on which every fetch rejects. -/
def netDown : Network := fun _ => none

/-- A network oracle on which exactly one core asset fetch rejects and
every other fetch resolves with an ok response. -/
def netOneDown : Network :=
  fun p => if p == "/about.html" then none else some demoResponse

/-- Claim C1 (the code contradicts it): when fetching a core manifest
asset fails, the promise chain inside `event.waitUntil` rejects
(`installChain` is `none`, because `cache.addAll` rejected), but the
final `.catch` of sw.js lines 68-70 swallows the rejection after logging
it, so the promise handed to `event.waitUntil` still resolves: the
install event completes successfully and the worker remains eligible for
activation.  Only `self.skipWaiting()` is skipped.  Evaluated here at a
network on which exactly the core asset "/about.html" is unreachable. -/
theorem install_failure_swallowed :
    installChain netOneDown [] = none
  ∧ (installEvent netOneDown []).waitUntilResolved = true
  ∧ (installEvent netOneDown []).skipWaitingCalled = false :=
  ⟨rfl, rfl, rfl⟩

/-- Claim C3: on a cache hit, the cache-first static-asset handler
returns the cached entry, leaves the cache unchanged, and performs no
network call. -/
theorem static_cache_hit_no_network (net : Network) (cs : CacheStorage) (req : String)
    (r : Response) (h : cachesMatch cs req = some r) :
    handleStaticAsset net cs req =
      { response := r, cache := cs, networkCalls := 0 } := by
  simp [handleStaticAsset, h]

/-- Concrete instance of `static_cache_hit_no_network`: a hit on the
demo storage with the network fully down. -/
theorem static_cache_hit_no_network_witness :
    handleStaticAsset netDown demoStorage "/style.css" =
      { response := demoResponse, cache := demoStorage, networkCalls := 0 } :=
  static_cache_hit_no_network netDown demoStorage "/style.css" demoResponse (by decide)

/-- Claim C6: the control channel posts at most one reply per message;
`GET_VERSION` yields exactly one reply carrying the configured version
string, and an unrecognized type such as "bogus" yields no reply. -/
theorem control_channel_replies :
    (∀ cs : CacheStorage,
      (onMessage cs (some { type := some "GET_VERSION" })).1
        = [ReplyMsg.versionReply CACHE_VERSION])
  ∧ CACHE_VERSION = "1.0.0"
  ∧ (∀ (cs : CacheStorage) (d : Option MessageData), (onMessage cs d).1.length ≤ 1)
  ∧ (∀ cs : CacheStorage, (onMessage cs (some { type := some "bogus" })).1 = []) := by
  refine ⟨fun cs => rfl, rfl, ?_, fun cs => rfl⟩
  intro cs d
  cases d with
  | none => simp [onMessage]
  | some md =>
    obtain ⟨ty⟩ := md
    cases ty with
    | none => simp [onMessage]
    | some t =>
      simp only [onMessage]
      split_ifs <;> simp

/-- Claim C10: a message whose data is null/undefined, or whose data has
no `type` field, produces no reply (and no `skipWaiting` call). -/
theorem malformed_message_no_reply :
    (∀ cs : CacheStorage, onMessage cs none = ([], false))
  ∧ (∀ cs : CacheStorage, onMessage cs (some { type := none }) = ([], false)) :=
  ⟨fun _ => rfl, fun _ => rfl⟩

/-- Helper: if neither of two patterns is a character-suffix of the
other, no path can end with both. -/
theorem ends_both_false (p a b : String) (hab : a.data.isSuffixOf b.data = false)
    (hba : b.data.isSuffixOf a.data = false) (ha : jsEndsWith p a = true) :
    jsEndsWith p b = false := by
  rw [Bool.eq_false_iff]
  intro hb
  simp only [jsEndsWith, List.isSuffixOf_iff_suffix] at ha hb
  rcases List.suffix_or_suffix_of_suffix ha hb with h | h
  · have hx : a.data.isSuffixOf b.data = true := by
      rw [List.isSuffixOf_iff_suffix]; exact h
    rw [hab] at hx
    exact Bool.noConfusion hx
  · have hx : b.data.isSuffixOf a.data = true := by
      rw [List.isSuffixOf_iff_suffix]; exact h
    rw [hba] at hx
    exact Bool.noConfusion hx

/-- Helper: a path ending in ".html" matches no static-asset extension. -/
theorem html_not_static (p : String) (h : jsEndsWith p ".html" = true) :
    isStaticAsset p = false := by
  have hc : ∀ b : String, (".html" : String).data.isSuffixOf b.data = false →
      b.data.isSuffixOf (".html" : String).data = false → jsEndsWith p b = false :=
    fun b hab hba => ends_both_false p ".html" b hab hba h
  simp only [isStaticAsset, staticExtensions, List.any_cons, List.any_nil,
    Bool.or_eq_false_iff]
  refine ⟨?_, ?_, ?_, ?_, ?_, ?_, ?_, ?_, ?_, ?_, trivial⟩ <;>
    exact hc _ (by decide) (by decide)

/-- Helper: a path classified as an HTML page is not a static asset. -/
theorem htmlPage_not_static (p : String) (h : isHTMLPage p = true) :
    isStaticAsset p = false := by
  rw [isHTMLPage] at h
  rcases Bool.or_eq_true_iff.mp h with hh | hh
  · exact html_not_static p hh
  · have : p = "/" := by simpa using hh
    subst this
    decide

/-- Claim C4: the classifier is the stated pure function of the path — a
path ending in one of the ten static extensions is StaticAsset, a path
ending in ".html" or equal to "/" is HTMLPage, any other path is Other —
together with the four concrete scenarios from the spec. -/
theorem classifier_spec :
    (∀ p : String, isStaticAsset p = true → classify p = RoutingCategory.StaticAsset)
  ∧ (∀ p : String, (jsEndsWith p ".html" || p == "/") = true →
      classify p = RoutingCategory.HTMLPage)
  ∧ (∀ p : String, isStaticAsset p = false → isHTMLPage p = false →
      classify p = RoutingCategory.Other)
  ∧ classify "/style.css" = RoutingCategory.StaticAsset
  ∧ classify "/about.html" = RoutingCategory.HTMLPage
  ∧ classify "/" = RoutingCategory.HTMLPage
  ∧ classify "/api/data" = RoutingCategory.Other := by
  refine ⟨?_, ?_, ?_, by decide, by decide, by decide, by decide⟩
  · intro p hp
    simp [classify, hp]
  · intro p hp
    have hH : isHTMLPage p = true := by rw [isHTMLPage]; exact hp
    have hS : isStaticAsset p = false := htmlPage_not_static p hH
    simp [classify, hS, hH]
  · intro p h1 h2
    simp [classify, h1, h2]

/-- Concrete instance of `classifier_spec` at fresh paths. -/
theorem classifier_spec_witness :
    classify "/theme.css" = RoutingCategory.StaticAsset
  ∧ classify "/extra.html" = RoutingCategory.HTMLPage
  ∧ classify "/api" = RoutingCategory.Other :=
  ⟨classifier_spec.1 "/theme.css" (by decide),
   classifier_spec.2.1 "/extra.html" (by decide),
   classifier_spec.2.2.1 "/api" (by decide) (by decide)⟩

/-- Claim C9: `isStaticAsset` and `isHTMLPage` are never both true, and
the fetch dispatch assigns every path to exactly one routing category
(whose guard predicate holds on that path). -/
theorem classifier_disjoint_total : ∀ p : String,
    (isStaticAsset p && isHTMLPage p) = false
  ∧ ((classify p = RoutingCategory.StaticAsset ∧ isStaticAsset p = true)
    ∨ (classify p = RoutingCategory.HTMLPage ∧ isHTMLPage p = true)
    ∨ (classify p = RoutingCategory.Other ∧ isStaticAsset p = false
        ∧ isHTMLPage p = false)) := by
  intro p
  have hdisj : (isStaticAsset p && isHTMLPage p) = false := by
    cases hH : isHTMLPage p with
    | false => simp
    | true => simp [htmlPage_not_static p hH]
  refine ⟨hdisj, ?_⟩
  cases hS : isStaticAsset p with
  | true => exact Or.inl ⟨by simp [classify, hS], rfl⟩
  | false =>
    cases hH : isHTMLPage p with
    | true => exact Or.inr (Or.inl ⟨by simp [classify, hS, hH], rfl⟩)
    | false => exact Or.inr (Or.inr ⟨by simp [classify, hS, hH], rfl, rfl⟩)

/-- Helper: when the network rejects or answers non-ok, the HTML handler
runs its catch block. -/
theorem handleHTMLPage_failure (net : Network) (cs : CacheStorage) (req : String)
    (h : ∀ r, net req = some r → r.ok = false) :
    handleHTMLPage net cs req = htmlFallback cs req := by
  unfold handleHTMLPage
  cases hn : net req with
  | none => rfl
  | some r => simp [h r hn]

/-- Claim C2: when the network attempt for an HTML page rejects or
returns a non-success status, the handler falls back in order — the
cached entry for the exact request, then the cached entry for
"/index.html" (the root document), then the synthesized self-contained
offline document with status 200 and Content-Type text/html.  The
handler is a total function, so the request is always answered. -/
theorem html_fallback_chain (net : Network) (cs : CacheStorage) (req : String)
    (h : ∀ r, net req = some r → r.ok = false) :
    (∀ c, cachesMatch cs req = some c → handleHTMLPage net cs req = (c, cs))
  ∧ (∀ idx, cachesMatch cs req = none → cachesMatch cs "/index.html" = some idx →
      handleHTMLPage net cs req = (idx, cs))
  ∧ (cachesMatch cs req = none → cachesMatch cs "/index.html" = none →
      handleHTMLPage net cs req = (offlineResponse, cs))
  ∧ offlineResponse.status = 200 ∧ offlineResponse.contentType = some "text/html" := by
  have hf := handleHTMLPage_failure net cs req h
  refine ⟨?_, ?_, ?_, rfl, rfl⟩
  · intro c hc
    rw [hf]
    simp [htmlFallback, hc]
  · intro idx h1 h2
    rw [hf]
    simp [htmlFallback, h1, h2]
  · intro h1 h2
    rw [hf]
    simp [htmlFallback, h1, h2]

/-- Concrete instance of `html_fallback_chain`: network down, empty
cache, the offline document is served with status 200. -/
theorem html_fallback_chain_witness :
    handleHTMLPage netDown [] "/about.html" = (offlineResponse, [])
  ∧ offlineResponse.status = 200 := by
  have h := html_fallback_chain netDown [] "/about.html"
    (fun r hr => Option.noConfusion hr)
  exact ⟨h.2.2.1 rfl rfl, h.2.2.2.1⟩

/-- Claim C7: a non-ok network response is returned to the caller
unchanged and not persisted by the cache-first handler (on a cache miss)
and by the generic network-first handler, while the HTML handler treats
it exactly like a rejected fetch and runs its fallback chain. -/
theorem non_ok_not_cached :
    (∀ (net : Network) (cs : CacheStorage) (req : String) (r : Response),
      cachesMatch cs req = none → net req = some r → r.ok = false →
      handleStaticAsset net cs req = { response := r, cache := cs, networkCalls := 1 })
  ∧ (∀ (net : Network) (cs : CacheStorage) (req method : String) (r : Response),
      net req = some r → r.ok = false →
      handleNetworkFirst net cs req method = (r, cs))
  ∧ (∀ (net : Network) (cs : CacheStorage) (req : String) (r : Response),
      net req = some r → r.ok = false →
      handleHTMLPage net cs req = htmlFallback cs req) := by
  refine ⟨?_, ?_, ?_⟩
  · intro net cs req r hc hn hok
    simp [handleStaticAsset, hc, hn, hok]
  · intro net cs req method r hn hok
    simp [handleNetworkFirst, hn, hok]
  · intro net cs req r hn hok
    exact handleHTMLPage_failure net cs req
      (fun x hx => by rw [hn] at hx; cases hx; exact hok)

/-- Concrete instance of `non_ok_not_cached` at a network answering 404
for everything, with an empty cache. -/
theorem non_ok_not_cached_witness :
    handleStaticAsset netNotFound [] "/style.css"
      = { response := notFoundResponse, cache := ([] : CacheStorage), networkCalls := 1 }
  ∧ handleNetworkFirst netNotFound [] "/api/data" "GET" = (notFoundResponse, ([] : CacheStorage))
  ∧ handleHTMLPage netNotFound [] "/about.html" = htmlFallback [] "/about.html" :=
  ⟨non_ok_not_cached.1 netNotFound [] "/style.css" notFoundResponse rfl rfl (by decide),
   non_ok_not_cached.2.1 netNotFound [] "/api/data" "GET" notFoundResponse rfl (by decide),
   non_ok_not_cached.2.2 netNotFound [] "/about.html" notFoundResponse rfl (by decide)⟩

/-- Helper: a write routed through `caches.open(name)` leaves every
other namespace untouched. -/
theorem getNamespace_cachePut (cs : CacheStorage) (name req n : String) (r : Response)
    (h : n ≠ name) :
    getNamespace (cachePut cs name req r) n = getNamespace cs n := by
  induction cs with
  | nil => simp [cachePut, getNamespace, beq_iff_eq, Ne.symm h]
  | cons kc rest ih =>
    obtain ⟨k, c⟩ := kc
    by_cases hk : k = name
    · subst hk
      simp [cachePut, getNamespace, beq_iff_eq, Ne.symm h]
    · simp only [cachePut, beq_iff_eq]
      rw [if_neg hk]
      simp only [getNamespace, beq_iff_eq]
      by_cases hkn : k = n
      · simp [hkn]
      · simp [hkn, ih]

/-- Claim C8: every cache write of the three strategy executors goes
through `caches.open(CACHE_NAME)`, so a strategy never touches any other
namespace: for every identifier different from `CACHE_NAME`, its lookup
is unchanged by running any handler (in particular no evicted stale
namespace is ever recreated). -/
theorem writes_only_current_namespace :
    ∀ (net : Network) (cs : CacheStorage) (req method n : String), n ≠ CACHE_NAME →
      getNamespace (handleStaticAsset net cs req).cache n = getNamespace cs n
    ∧ getNamespace (handleHTMLPage net cs req).2 n = getNamespace cs n
    ∧ getNamespace (handleNetworkFirst net cs req method).2 n = getNamespace cs n := by
  intro net cs req method n hn
  have hfb : ∀ rq : String, (htmlFallback cs rq).2 = cs := by
    intro rq
    unfold htmlFallback
    cases cachesMatch cs rq with
    | some c => rfl
    | none =>
      cases cachesMatch cs "/index.html" with
      | some idx => rfl
      | none => rfl
  refine ⟨?_, ?_, ?_⟩
  · simp only [handleStaticAsset]
    cases hcm : cachesMatch cs req with
    | some c => simp
    | none =>
      cases hnr : net req with
      | none => simp
      | some r =>
        by_cases hok : r.ok = true
        · simp [hok, getNamespace_cachePut cs CACHE_NAME req n r hn]
        · simp [hok]
  · simp only [handleHTMLPage]
    cases hnr : net req with
    | none => simp [hfb req]
    | some r =>
      by_cases hok : r.ok = true
      · simp [hok, getNamespace_cachePut cs CACHE_NAME req n r hn]
      · simp [hok, hfb req]
  · simp only [handleNetworkFirst]
    cases hnr : net req with
    | none =>
      cases hcm : cachesMatch cs req with
      | some c => simp
      | none => simp
    | some r =>
      by_cases hok : (r.ok && (method == "GET")) = true
      · simp [hok, getNamespace_cachePut cs CACHE_NAME req n r hn]
      · simp only [Bool.and_eq_true, beq_iff_eq] at hok
        simp [hok]

/-- Concrete instance of `writes_only_current_namespace`: a foreign
namespace is untouched by all three handlers. -/
theorem writes_only_current_namespace_witness :
    getNamespace (handleStaticAsset netNotFound demoStorage "/style.css").cache "other-v0"
      = getNamespace demoStorage "other-v0"
  ∧ getNamespace (handleHTMLPage netNotFound demoStorage "/style.css").2 "other-v0"
      = getNamespace demoStorage "other-v0"
  ∧ getNamespace (handleNetworkFirst netNotFound demoStorage "/style.css" "GET").2 "other-v0"
      = getNamespace demoStorage "other-v0" :=
  writes_only_current_namespace netNotFound demoStorage "/style.css" "GET" "other-v0"
    (by decide)

/-- Helper: the namespaces surviving activation are exactly the
pre-existing identifiers equal to `CACHE_NAME`. -/
theorem activate_keys (cs : CacheStorage) :
    cachesKeys (activateEvent cs) = (cachesKeys cs).filter (fun x => x == CACHE_NAME) := by
  induction cs with
  | nil => rfl
  | cons kc rest ih =>
    obtain ⟨k, c⟩ := kc
    cases hk : (k == CACHE_NAME) with
    | false =>
      simp only [activateEvent, cachesKeys, List.filter_cons, List.map_cons, hk] at *
      simpa using ih
    | true =>
      simp only [activateEvent, cachesKeys, List.filter_cons, List.map_cons, hk] at *
      simpa using ih

/-- Helper: filtering a duplicate-free list down to one contained value
yields exactly that value. -/
theorem filter_eq_single_of_nodup (l : List String) (a : String) (hn : l.Nodup)
    (ha : a ∈ l) : l.filter (fun x => x == a) = [a] := by
  induction l with
  | nil => cases ha
  | cons b t ih =>
    rw [List.nodup_cons] at hn
    rcases List.mem_cons.mp ha with h | h
    · subst h
      rw [List.filter_cons]
      have ht : t.filter (fun x => x == a) = [] := by
        rw [List.filter_eq_nil_iff]
        intro x hx hxb
        rw [beq_iff_eq] at hxb
        exact hn.1 (hxb ▸ hx)
      simp [ht]
    · have hb : b ≠ a := fun hba => hn.1 (hba ▸ h)
      rw [List.filter_cons]
      simp [beq_iff_eq, hb, ih hn.2 h]

/-- Claim C5 fails as stated: activation only deletes namespaces and
never creates the current one, so from a pre-activation state holding
only a stale namespace the post-activation namespace set is empty, not
exactly the current identifier. -/
theorem activate_claim_counterexample :
    cachesKeys (activateEvent [("spiritual-count-v0", [])]) = []
  ∧ cachesKeys (activateEvent [("spiritual-count-v0", [])]) ≠ [CACHE_NAME] :=
  ⟨rfl, by decide⟩

/-- Claim C5, amended: activation deletes every namespace whose
identifier differs from `CACHE_NAME` and creates none; consequently,
whenever the current namespace existed before activation (namespace
identifiers are unique), exactly the current identifier remains,
regardless of how many stale namespaces existed. -/
theorem activate_evicts_stale (cs : CacheStorage) :
    (∀ n, n ∈ cachesKeys (activateEvent cs) → n = CACHE_NAME)
  ∧ (∀ n, n ∈ cachesKeys (activateEvent cs) → n ∈ cachesKeys cs)
  ∧ ((cachesKeys cs).Nodup → CACHE_NAME ∈ cachesKeys cs →
      cachesKeys (activateEvent cs) = [CACHE_NAME]) := by
  refine ⟨?_, ?_, ?_⟩
  · intro n hm
    rw [activate_keys] at hm
    have := List.of_mem_filter hm
    simpa [beq_iff_eq] using this
  · intro n hm
    rw [activate_keys] at hm
    exact List.mem_of_mem_filter hm
  · intro hnd hmem
    rw [activate_keys]
    exact filter_eq_single_of_nodup _ _ hnd hmem

/-- Concrete instance of `activate_evicts_stale`: one stale namespace
plus the current one; only the current one survives. -/
theorem activate_evicts_stale_witness :
    cachesKeys (activateEvent [("spiritual-count-v0", []), (CACHE_NAME, [])])
      = [CACHE_NAME] :=
  (activate_evicts_stale [("spiritual-count-v0", []), (CACHE_NAME, [])]).2.2
    (by decide) (by decide)
